import Mathlib

/-!
# Migration versioning and rollback engine — shallow embedding

This file embeds the migration engine of the `SupabaseManager` class
(`src/src/resources.ts`, lines 586–1337) together with the zod input
schemas (`src/src/validation.ts`) and the tool-handler registration layer
(`src/src/tools/supabase-tools.ts`), and proves or refutes the frozen
claims about it.

Modelling conventions:
* The external world (the Supabase RPC channels, the admin HTTP fallback,
  the wall clock, and fault injection for the `_migration_rollbacks`
  ledger insert) is a record of pure functions, `Env`.
* The durable state (the `supabase_migrations.schema_migrations` history
  table, the `_migration_rollbacks` ledger table, the trace of payloads
  successfully applied through any execution channel, and the trace of
  PostgREST store accesses) is a record, `DBState`.  Clock reads and
  ledger-insert attempts are numbered by counters in the state, so that
  successive `new Date()` calls and successive insert attempts can be
  given independent outcomes by `Env`.
* Row-level insert/delete on the history table is modelled as always
  succeeding (spec §5 assumes row-level atomicity of the underlying
  relational store; no claim exercises a history-delete fault), hence the
  dead `deleteError` fallback branches of `rollbackMigration`,
  `rollbackToVersion` and `rollbackLastMigrations` have no counterpart.
* JavaScript falsiness of `row.name` (null / undefined / empty string)
  is modelled by `Option String` plus an emptiness test.
-/

/-- Migration status, from `types.ts` (`'pending' | 'applied' | 'failed'`). -/
inductive MStatus where
  | pending
  | applied
  | failed
deriving DecidableEq, Repr

/-- The `Migration` result object built by the engine. -/
structure Migration where
  version : String
  name : String
  executed_at : String
  status : MStatus
  sql : Option String
deriving DecidableEq, Repr

/-- A row of `supabase_migrations.schema_migrations` (the History Store). -/
structure HistoryRow where
  version : String
  name : Option String
  inserted_at : String
deriving DecidableEq, Repr

/-- A row of `_migration_rollbacks` (the Rollback Ledger). -/
structure LedgerRow where
  version : String
  name : String
  down_sql : String
  created_at : String
deriving DecidableEq, Repr

/-- Trace entries for PostgREST store accesses (`this.client.from(...)`). -/
inductive StoreOp where
  | historySelectAll
  | historySelectEq (version : String)
  | historySelectGt (version : String)
  | historySelectTop (count : Nat)
  | historyDelete (version : String)
  | ledgerSelectEq (version : String)
  | ledgerInsert (version : String)
deriving DecidableEq, Repr

/-- The uniform result shape `ToolResponse<T>` from `types.ts`:
`{success, data?, error?, message?}`. -/
structure ToolResponse (α : Type) where
  success : Bool
  data : Option α
  error : Option String
  message : Option String
deriving DecidableEq, Repr

/-- A wall-clock value as read by `new Date()`, split into the UTC
components that `toISOString()` renders. -/
structure DateTime where
  year : Nat
  month : Nat
  day : Nat
  hour : Nat
  minute : Nat
  second : Nat
  ms : Nat
deriving DecidableEq, Repr

/-- Component ranges of a real ECMAScript time value whose
`toISOString()` uses the plain (non-expanded) `YYYY-MM-DDTHH:mm:ss.sssZ`
form: years up to 9999, calendar fields in range. -/
def DateTime.Valid (d : DateTime) : Bool :=
  d.year ≤ 9999 && 1 ≤ d.month && d.month ≤ 12 && 1 ≤ d.day && d.day ≤ 31 &&
    d.hour ≤ 23 && d.minute ≤ 59 && d.second ≤ 59 && d.ms ≤ 999

/-- The decimal digit character for `n % 10`. -/
def digitChar (n : Nat) : Char := Char.ofNat (48 + n % 10)

/-- Two-digit zero-padded decimal rendering (the `mm`, `dd`, `HH`, `mm`,
`ss` fields of `toISOString()`), as a character list. -/
def pad2L (n : Nat) : List Char := [digitChar (n / 10), digitChar n]

/-- Three-digit zero-padded decimal rendering (the `sss` milliseconds
field of `toISOString()`), as a character list. -/
def pad3L (n : Nat) : List Char := [digitChar (n / 100), digitChar (n / 10), digitChar n]

/-- Four-digit zero-padded decimal rendering (the `YYYY` field of
`toISOString()`), as a character list. -/
def pad4L (n : Nat) : List Char :=
  [digitChar (n / 1000), digitChar (n / 100), digitChar (n / 10), digitChar n]

/-- The character list of `new Date(d).toISOString()`:
`YYYY-MM-DDTHH:mm:ss.sssZ`. -/
def isoChars (d : DateTime) : List Char :=
  pad4L d.year ++ ['-'] ++ pad2L d.month ++ ['-'] ++ pad2L d.day ++ ['T'] ++
    pad2L d.hour ++ [':'] ++ pad2L d.minute ++ [':'] ++ pad2L d.second ++
    ['.'] ++ pad3L d.ms ++ ['Z']

/-- `toISOString()` as a string. -/
def isoString (d : DateTime) : String := ⟨isoChars d⟩

/-- The characters removed by `.replace(/[-:.TZ]/g, '')`. -/
def isDateSep (c : Char) : Bool :=
  c == '-' || c == ':' || c == '.' || c == 'T' || c == 'Z'

/-- Character list of the allocated version:
`toISOString().replace(/[-:.TZ]/g, '').slice(0, 14)`. -/
def versionChars (d : DateTime) : List Char :=
  (((isoChars d).filter (fun c => !(isDateSep c))).take 14)

/-- The Version Allocator: the 14-character version string computed at
the top of `deployMigration` and `createMigrationWithRollback`. -/
def versionOf (d : DateTime) : String := ⟨versionChars d⟩

theorem digitChar_not_sep (n : Nat) : isDateSep (digitChar n) = false := by
  have h : n % 10 < 10 := Nat.mod_lt _ (by norm_num)
  have key : ∀ m < 10, isDateSep (Char.ofNat (48 + m)) = false := by decide
  simpa [digitChar] using key (n % 10) h

theorem digitChar_isDigit (n : Nat) : (digitChar n).isDigit = true := by
  have h : n % 10 < 10 := Nat.mod_lt _ (by norm_num)
  have key : ∀ m < 10, (Char.ofNat (48 + m)).isDigit = true := by decide
  simpa [digitChar] using key (n % 10) h

/-- After stripping the separators, the first 14 characters are exactly
the six zero-padded date/time fields. -/
theorem versionChars_eq (d : DateTime) :
    versionChars d =
      pad4L d.year ++ pad2L d.month ++ pad2L d.day ++ pad2L d.hour ++
        pad2L d.minute ++ pad2L d.second := by
  have hdash : isDateSep '-' = true := by decide
  have hcolon : isDateSep ':' = true := by decide
  have hdot : isDateSep '.' = true := by decide
  have hT : isDateSep 'T' = true := by decide
  have hZ : isDateSep 'Z' = true := by decide
  have hfilter : (isoChars d).filter (fun c => !(isDateSep c)) =
      pad4L d.year ++ pad2L d.month ++ pad2L d.day ++ pad2L d.hour ++
        pad2L d.minute ++ pad2L d.second ++ pad3L d.ms := by
    simp [isoChars, pad4L, pad3L, pad2L, List.filter_append, List.filter_cons,
      digitChar_not_sep, hdash, hcolon, hdot, hT, hZ]
  have hlen : (pad4L d.year ++ pad2L d.month ++ pad2L d.day ++ pad2L d.hour ++
      pad2L d.minute ++ pad2L d.second).length = 14 := by
    simp [pad4L, pad2L]
  calc versionChars d
      = ((pad4L d.year ++ pad2L d.month ++ pad2L d.day ++ pad2L d.hour ++
          pad2L d.minute ++ pad2L d.second) ++ pad3L d.ms).take 14 := by
        simp [versionChars, hfilter, List.append_assoc]
    _ = pad4L d.year ++ pad2L d.month ++ pad2L d.day ++ pad2L d.hour ++
          pad2L d.minute ++ pad2L d.second := List.take_left' hlen

theorem versionChars_length (d : DateTime) : (versionChars d).length = 14 := by
  simp [versionChars_eq, pad4L, pad2L]

theorem versionChars_digits (d : DateTime) :
    ∀ c ∈ versionChars d, c.isDigit = true := by
  intro c hc
  rw [versionChars_eq] at hc
  simp only [pad4L, pad2L, List.mem_append, List.mem_cons, List.not_mem_nil,
    or_false] at hc
  have hex : ∃ m, c = digitChar m := by
    casesm* _ ∨ _
    all_goals exact ⟨_, by assumption⟩
  obtain ⟨m, rfl⟩ := hex
  exact digitChar_isDigit m

/-- The external world: the two RPC execution channels (`exec`,
`exec_sql`), the admin HTTP fallback (`POST /rest/v1/rpc/query`), fault
injection for the k-th `_migration_rollbacks` insert attempt, and the
wall clock (the k-th `new Date()` call).  For the RPC channels `none`
means success and `some msg` the error message. -/
structure Env where
  rpcExec : String → Option String
  adminPost : String → Bool
  rpcExecSql : String → Option String
  ledgerInsertFails : Nat → Bool
  clock : Nat → DateTime

/-- Durable state plus observation traces: the History Store table, the
Rollback Ledger table, the payloads successfully applied through any
execution channel, the trace of PostgREST store accesses, and the two
counters numbering clock reads and ledger-insert attempts. -/
structure DBState where
  history : List HistoryRow
  ledger : List LedgerRow
  executed : List String
  ops : List StoreOp
  clockIdx : Nat
  ledgerIdx : Nat

/-- Error text of `deployMigration`'s failure result (both execution
channels failed). -/
def deployFailError (msg : String) : String :=
  "Migration created but SQL execution failed: " ++ msg ++
    ". Execute SQL manually in Supabase dashboard, then use CLI: supabase migration list"

/-- Success message of `deployMigration`. -/
def deploySuccessMessage (name version : String) : String :=
  "Migration " ++ name ++ " (" ++ version ++
    ") created. Note: For self-hosted Supabase, you may need to apply migrations using the Supabase CLI: supabase db push"

/-- `deployMigration(sql, name)`: allocate a version, try the `exec` RPC,
fall back to the admin endpoint; on total failure return a failure result
still carrying the version/name pair at `status=pending`.  No History
Store row is written on any path. -/
def deployMigration (env : Env) (st : DBState) (sql name : String) :
    DBState × ToolResponse Migration :=
  let d := env.clock st.clockIdx
  let st1 := { st with clockIdx := st.clockIdx + 1 }
  let version := versionOf d
  let applied := fun (stA : DBState) =>
    let st2 := { stA with executed := stA.executed ++ [sql] }
    let d2 := env.clock st2.clockIdx
    let st3 := { st2 with clockIdx := st2.clockIdx + 1 }
    (st3, ({ success := true,
             data := some { version := version, name := name,
                            executed_at := isoString d2, status := .applied,
                            sql := some sql },
             error := none,
             message := some (deploySuccessMessage name version) } :
           ToolResponse Migration))
  match env.rpcExec sql with
  | none => applied st1
  | some errMsg =>
      if env.adminPost sql then applied st1
      else
        let d2 := env.clock st1.clockIdx
        let st2 := { st1 with clockIdx := st1.clockIdx + 1 }
        (st2, { success := false,
                data := some { version := version, name := name,
                               executed_at := isoString d2, status := .pending,
                               sql := some sql },
                error := some (deployFailError errMsg),
                message := none })

/-- Error text of `executeSQL` when the `exec` RPC fails. -/
def execSqlError (msg : String) : String :=
  "SQL execution not supported via REST API. Please use one of these alternatives:\n" ++
    "1. Supabase CLI: supabase db execute --file your-file.sql\n" ++
    "2. Supabase Dashboard: SQL Editor\n" ++
    "3. Direct psql connection: psql $SUPABASE_DB_URL\n" ++
    "Error: " ++ msg

/-- `executeSQL(sql)`: one attempt through the `exec` RPC. -/
def executeSQL (env : Env) (st : DBState) (sql : String) :
    DBState × ToolResponse Unit :=
  match env.rpcExec sql with
  | none => ({ st with executed := st.executed ++ [sql] },
             { success := true, data := none, error := none,
               message := some "SQL executed successfully" })
  | some msg => (st, { success := false, data := none,
                       error := some (execSqlError msg), message := none })

/-- Descending-by-version row order, `order('version', ascending false)`. -/
def histGe (a b : HistoryRow) : Prop := b.version ≤ a.version

instance : DecidableRel histGe :=
  fun a b => (inferInstance : Decidable (b.version ≤ a.version))

instance : IsTotal HistoryRow histGe := ⟨fun a b => le_total b.version a.version⟩

instance : IsTrans HistoryRow histGe := ⟨fun _ _ _ h1 h2 => le_trans h2 h1⟩

/-- The store's `ORDER BY version DESC`, modelled as a sort. -/
def sortByVersionDesc (rows : List HistoryRow) : List HistoryRow :=
  rows.insertionSort histGe

/-- `row.name || `Migration ${row.version}``: JavaScript falsiness makes
null, undefined and the empty string all fall back to the default. -/
def migrationName (r : HistoryRow) : String :=
  match r.name with
  | some n => if n.isEmpty then "Migration " ++ r.version else n
  | none => "Migration " ++ r.version

/-- How `listMigrations` / `getMigrationStatus` render a History Store
row: the status is the constant `'applied' as const`. -/
def rowToMigration (r : HistoryRow) : Migration :=
  { version := r.version, name := migrationName r, executed_at := r.inserted_at,
    status := .applied, sql := none }

/-- `listMigrations()`: select all history rows ordered by version
descending and render each with constant status `applied`. -/
def listMigrations (_env : Env) (st : DBState) :
    DBState × ToolResponse (List Migration) :=
  let st1 := { st with ops := st.ops ++ [StoreOp.historySelectAll] }
  (st1, { success := true,
          data := some ((sortByVersionDesc st1.history).map rowToMigration),
          error := none, message := none })

/-- The PostgREST error raised by `.single()` when the match is not
exactly one row (modelled constant). -/
def singleRowError : String :=
  "JSON object requested, multiple (or no) rows returned"

/-- Error text of `getMigrationStatus` when `.single()` throws. -/
def getStatusError (version : String) : String :=
  "Failed to get migration status for version " ++ version ++ ": " ++ singleRowError

/-- `getMigrationStatus(version)`: `.eq('version', v).single()`; any
match count other than one is an error, surfaced as a failure result. -/
def getMigrationStatus (_env : Env) (st : DBState) (version : String) :
    DBState × ToolResponse Migration :=
  let st1 := { st with ops := st.ops ++ [StoreOp.historySelectEq version] }
  match st1.history.filter (fun r => r.version == version) with
  | [row] => (st1, { success := true, data := some (rowToMigration row),
                     error := none, message := none })
  | _ => (st1, { success := false, data := none,
                 error := some (getStatusError version), message := none })

/-- Success message of `rollbackMigration`. -/
def rollbackSuccessMessage (version : String) : String :=
  "Migration " ++ version ++ " rolled back successfully"

/-- `handleError` context of `rollbackMigration`. -/
def rollbackFailContext (version : String) : String :=
  "Failed to rollback migration " ++ version

/-- `rollbackMigration(version, downSql?)`: when a down payload is
given, try the `exec_sql` RPC and then `executeSQL` as fallback; if both
fail the thrown error aborts the rollback before the delete.  Otherwise
delete the history row (history-only removal when no payload is given).
The store delete is modelled as always succeeding, so the dead
`deleteError` fallback has no counterpart. -/
def rollbackMigration (env : Env) (st : DBState) (version : String)
    (downSql : Option String) : DBState × ToolResponse Unit :=
  let step := fun (stA : DBState) =>
    let st2 := { stA with
                 ops := stA.ops ++ [StoreOp.historyDelete version],
                 history := stA.history.filter (fun r => !(r.version == version)) }
    (st2, ({ success := true, data := none, error := none,
             message := some (rollbackSuccessMessage version) } :
           ToolResponse Unit))
  match downSql with
  | none => step st
  | some ds =>
      match env.rpcExecSql ds with
      | none => step { st with executed := st.executed ++ [ds] }
      | some _ =>
          let r := executeSQL env st ds
          if r.2.success then step r.1
          else
            (r.1, { success := false, data := none,
                    error := some (rollbackFailContext version ++ ": " ++
                      (r.2.error.getD "Unknown error")),
                    message := none })

/-- Shared bulk-rollback loop body: delete each selected row in order,
collecting the versions whose delete succeeded (always, in this model). -/
def rollbackRows (st : DBState) : List HistoryRow → DBState × List String
  | [] => (st, [])
  | r :: rs =>
      let st1 := { st with
                   ops := st.ops ++ [StoreOp.historyDelete r.version],
                   history := st.history.filter (fun h => !(h.version == r.version)) }
      let res := rollbackRows st1 rs
      (res.1, r.version :: res.2)

/-- Message when the bulk selection is empty. -/
def noMigrationsMessage : String := "No migrations to rollback"

/-- Success message of `rollbackToVersion`. -/
def rolledBackMessage (n : Nat) (target : String) : String :=
  "Rolled back " ++ toString n ++ " migration(s) to version " ++ target

/-- `rollbackToVersion(target)`: select history rows with
`version > target` ordered descending, then delete each in that order,
returning the processed versions. -/
def rollbackToVersion (_env : Env) (st : DBState) (target : String) :
    DBState × ToolResponse (List String) :=
  let st1 := { st with ops := st.ops ++ [StoreOp.historySelectGt target] }
  let selected :=
    sortByVersionDesc (st1.history.filter (fun r => decide (target < r.version)))
  if selected.isEmpty then
    (st1, { success := true, data := some [], error := none,
            message := some noMigrationsMessage })
  else
    let res := rollbackRows st1 selected
    (res.1, { success := true, data := some res.2, error := none,
              message := some (rolledBackMessage res.2.length target) })

/-- The `CREATE TABLE IF NOT EXISTS _migration_rollbacks (...)` DDL sent
through `executeSQL` by the self-healing branch (payload text condensed;
the engine treats it as opaque). -/
def createRollbacksTableSql : String :=
  "CREATE TABLE IF NOT EXISTS _migration_rollbacks (version TEXT PRIMARY KEY, name TEXT, down_sql TEXT, created_at TIMESTAMP DEFAULT NOW());"

/-- Success message of `createMigrationWithRollback`. -/
def withRollbackMessage (name : String) : String :=
  "Migration " ++ name ++ " deployed with rollback support"

/-- `createMigrationWithRollback(name, upSql, downSql)`: allocate a
version, delegate to `deployMigration` (which allocates its own,
possibly different, version), and on success insert the Rollback Ledger
row under the OUTER version.  On insert failure, provision the ledger
table and retry once; the retry result is discarded and the operation
reports success regardless. -/
def createMigrationWithRollback (env : Env) (st : DBState)
    (name upSql downSql : String) : DBState × ToolResponse Migration :=
  let d := env.clock st.clockIdx
  let st1 := { st with clockIdx := st.clockIdx + 1 }
  let version := versionOf d
  let dep := deployMigration env st1 upSql name
  if dep.2.success = false then dep
  else
    let st2 := dep.1
    let d2 := env.clock st2.clockIdx
    let st3 := { st2 with clockIdx := st2.clockIdx + 1 }
    let fail1 := env.ledgerInsertFails st3.ledgerIdx
    let st4 := { st3 with ledgerIdx := st3.ledgerIdx + 1,
                          ops := st3.ops ++ [StoreOp.ledgerInsert version] }
    let ok := fun (stA : DBState) =>
      (stA, ({ success := true, data := dep.2.data, error := none,
               message := some (withRollbackMessage name) } :
             ToolResponse Migration))
    if fail1 then
      let heal := executeSQL env st4 createRollbacksTableSql
      let st5 := heal.1
      let d3 := env.clock st5.clockIdx
      let st6 := { st5 with clockIdx := st5.clockIdx + 1 }
      let fail2 := env.ledgerInsertFails st6.ledgerIdx
      let st7 := { st6 with ledgerIdx := st6.ledgerIdx + 1,
                            ops := st6.ops ++ [StoreOp.ledgerInsert version] }
      if fail2 then ok st7
      else ok { st7 with ledger := st7.ledger ++
                  [{ version := version, name := name, down_sql := downSql,
                     created_at := isoString d3 }] }
    else
      ok { st4 with ledger := st4.ledger ++
             [{ version := version, name := name, down_sql := downSql,
                created_at := isoString d2 }] }

/-- Error text of `rollbackMigrationWithDownSql` when no ledger row
matches. -/
def noRollbackDataError (version : String) : String :=
  "No rollback SQL found for migration " ++ version ++
    ". Use rollbackMigration() with manual down SQL instead."

/-- `rollbackMigrationWithDownSql(version)`: resolve the down payload
from the Rollback Ledger (`.single()`), then delegate to
`rollbackMigration`. -/
def rollbackMigrationWithDownSql (env : Env) (st : DBState) (version : String) :
    DBState × ToolResponse Unit :=
  let st1 := { st with ops := st.ops ++ [StoreOp.ledgerSelectEq version] }
  match st1.ledger.filter (fun r => r.version == version) with
  | [row] => rollbackMigration env st1 version (some row.down_sql)
  | _ => (st1, { success := false, data := none,
                 error := some (noRollbackDataError version), message := none })

/-- `versionSchema`: `z.string().regex(/^\d{14}$/)`. -/
def isValidVersionStr (s : String) : Bool :=
  s.length == 14 && s.data.all (fun c => c.isDigit)

/-- `nameSchema`: `z.string().min(1).max(100)`. -/
def isValidNameStr (s : String) : Bool := 1 ≤ s.length && s.length ≤ 100

/-- `sqlSchema`: `z.string().min(1)`. -/
def isValidSqlStr (s : String) : Bool := 1 ≤ s.length

/-- The response the transport layer produces when `validateInput`
throws: the handler never runs, the state is untouched. -/
def validationFailure (α : Type) (msg : String) : ToolResponse α :=
  { success := false, data := none,
    error := some ("Validation failed: " ++ msg), message := none }

/-- Tool handler `deploy_migration`: validates with
`deployMigrationSchema` before calling the engine. -/
def toolDeployMigration (env : Env) (st : DBState) (sql name : String) :
    DBState × ToolResponse Migration :=
  if isValidSqlStr sql && isValidNameStr name then
    deployMigration env st sql name
  else (st, validationFailure Migration "deploy_migration input rejected")

/-- Tool handler `create_migration_with_rollback`: validates with
`createMigrationWithRollbackSchema` before calling the engine. -/
def toolCreateMigrationWithRollback (env : Env) (st : DBState)
    (name upSql downSql : String) : DBState × ToolResponse Migration :=
  if isValidNameStr name && isValidSqlStr upSql && isValidSqlStr downSql then
    createMigrationWithRollback env st name upSql downSql
  else (st, validationFailure Migration "create_migration_with_rollback input rejected")

/-- Tool handler `get_migration_status`: destructures the arguments and
calls the engine directly — `getMigrationStatusSchema` exists in
`validation.ts` but is not applied here. -/
def toolGetMigrationStatus (env : Env) (st : DBState) (version : String) :
    DBState × ToolResponse Migration :=
  getMigrationStatus env st version

/-- Tool handler `rollback_migration`: destructures the arguments and
calls the engine directly — `rollbackMigrationSchema` exists in
`validation.ts` but is not applied here. -/
def toolRollbackMigration (env : Env) (st : DBState) (version : String)
    (downSql : Option String) : DBState × ToolResponse Unit :=
  rollbackMigration env st version downSql

/-- Tool handler `rollback_to_version`: no validation is applied. -/
def toolRollbackToVersion (env : Env) (st : DBState) (version : String) :
    DBState × ToolResponse (List String) :=
  rollbackToVersion env st version

/-- Tool handler `rollback_migration_with_down_sql`: no validation is
applied. -/
def toolRollbackMigrationWithDownSql (env : Env) (st : DBState)
    (version : String) : DBState × ToolResponse Unit :=
  rollbackMigrationWithDownSql env st version

/-! ## Concrete fixtures used by witnesses and counterexamples -/

/-- 2025-01-02T03:04:05.006Z. -/
def dt0 : DateTime := ⟨2025, 1, 2, 3, 4, 5, 6⟩

/-- One second later: 2025-01-02T03:04:06.007Z. -/
def dt1 : DateTime := ⟨2025, 1, 2, 3, 4, 6, 7⟩

/-- Everything succeeds; the clock is stuck at `dt0`. -/
def envOk : Env :=
  { rpcExec := fun _ => none, adminPost := fun _ => true,
    rpcExecSql := fun _ => none, ledgerInsertFails := fun _ => false,
    clock := fun _ => dt0 }

/-- Every execution channel fails. -/
def envExecFail : Env :=
  { rpcExec := fun _ => some "boom", adminPost := fun _ => false,
    rpcExecSql := fun _ => some "downfail", ledgerInsertFails := fun _ => false,
    clock := fun _ => dt0 }

/-- Execution succeeds but every Rollback Ledger insert attempt fails. -/
def envLedgerFail : Env :=
  { rpcExec := fun _ => none, adminPost := fun _ => true,
    rpcExecSql := fun _ => none, ledgerInsertFails := fun _ => true,
    clock := fun _ => dt0 }

/-- Execution succeeds; the first clock read gives `dt0` and every later
one `dt1` (the second boundary is crossed between the two version
allocations of `createMigrationWithRollback`). -/
def envTick : Env :=
  { rpcExec := fun _ => none, adminPost := fun _ => true,
    rpcExecSql := fun _ => none, ledgerInsertFails := fun _ => false,
    clock := fun k => if k = 0 then dt0 else dt1 }

/-- The empty initial state. -/
def st0 : DBState :=
  { history := [], ledger := [], executed := [], ops := [],
    clockIdx := 0, ledgerIdx := 0 }

/-- A state whose History Store holds three rows. -/
def st3rows : DBState :=
  { st0 with history :=
      [⟨"20250102030405", some "a", "t1"⟩, ⟨"20250102030407", none, "t2"⟩,
       ⟨"20250102030401", some "", "t3"⟩] }

/-! ## Helper lemmas -/

/-- The `YYYYMMDDHHMMSS` encoding of a timestamp, as characters. -/
def yyyymmddhhmmss (d : DateTime) : List Char :=
  pad4L d.year ++ pad2L d.month ++ pad2L d.day ++ pad2L d.hour ++
    pad2L d.minute ++ pad2L d.second

theorem versionOf_spec (d : DateTime) :
    (versionOf d).data = yyyymmddhhmmss d ∧ (versionOf d).length = 14 ∧
      ∀ c ∈ (versionOf d).data, c.isDigit = true := by
  refine ⟨?_, ?_, ?_⟩
  · simpa [versionOf, yyyymmddhhmmss] using versionChars_eq d
  · simpa [versionOf, String.length] using versionChars_length d
  · simpa [versionOf] using versionChars_digits d

theorem deployMigration_data (env : Env) (st : DBState) (sql name : String) :
    ∃ m, (deployMigration env st sql name).2.data = some m ∧
      m.version = versionOf (env.clock st.clockIdx) ∧ m.name = name := by
  simp only [deployMigration]
  split
  · exact ⟨_, rfl, rfl, rfl⟩
  · split
    · exact ⟨_, rfl, rfl, rfl⟩
    · exact ⟨_, rfl, rfl, rfl⟩

/-- `deployMigration` touches no store table and makes exactly two clock
reads on every path. -/
theorem deployMigration_state (env : Env) (st : DBState) (sql name : String) :
    (deployMigration env st sql name).1.history = st.history ∧
      (deployMigration env st sql name).1.ledger = st.ledger ∧
      (deployMigration env st sql name).1.ops = st.ops ∧
      (deployMigration env st sql name).1.ledgerIdx = st.ledgerIdx ∧
      (deployMigration env st sql name).1.clockIdx = st.clockIdx + 2 := by
  simp only [deployMigration]
  split
  · exact ⟨rfl, rfl, rfl, rfl, rfl⟩
  · split
    · exact ⟨rfl, rfl, rfl, rfl, rfl⟩
    · exact ⟨rfl, rfl, rfl, rfl, rfl⟩

theorem createMigrationWithRollback_data (env : Env) (st : DBState)
    (name upSql downSql : String) :
    (createMigrationWithRollback env st name upSql downSql).2.data =
      (deployMigration env { st with clockIdx := st.clockIdx + 1 } upSql name).2.data := by
  simp only [createMigrationWithRollback]
  split
  · rfl
  · split
    · split
      · rfl
      · rfl
    · rfl

/-! ## Claims -/

/-- C9: Every version allocated at migration creation (by
`deployMigration` and by `createMigrationWithRollback`) is a
14-character decimal string encoding the UTC timestamp read from the
clock at second granularity in the format `YYYYMMDDHHMMSS`, hence
matches `\d{14}`.  The hypotheses restrict the clock reads to the model
domain of `toISOString()`'s plain format (valid calendar components,
year at most 9999). -/
theorem c9_allocated_version_format (env : Env) (st : DBState)
    (sql name nm up down : String)
    (h1 : (env.clock st.clockIdx).Valid = true)
    (h2 : (env.clock (st.clockIdx + 1)).Valid = true) :
    (∃ m, (deployMigration env st sql name).2.data = some m ∧
      m.version.data = yyyymmddhhmmss (env.clock st.clockIdx) ∧
      m.version.length = 14 ∧ ∀ c ∈ m.version.data, c.isDigit = true) ∧
    (∃ m, (createMigrationWithRollback env st nm up down).2.data = some m ∧
      m.version.data = yyyymmddhhmmss (env.clock (st.clockIdx + 1)) ∧
      m.version.length = 14 ∧ ∀ c ∈ m.version.data, c.isDigit = true) := by
  obtain ⟨m, hm, hv, -⟩ := deployMigration_data env st sql name
  obtain ⟨m2, hm2, hv2, -⟩ :=
    deployMigration_data env { st with clockIdx := st.clockIdx + 1 } up nm
  obtain ⟨e1, e2, e3⟩ := versionOf_spec (env.clock st.clockIdx)
  obtain ⟨f1, f2, f3⟩ := versionOf_spec (env.clock (st.clockIdx + 1))
  refine ⟨⟨m, hm, ?_, ?_, ?_⟩, ⟨m2, ?_, ?_, ?_, ?_⟩⟩
  · rw [hv]; exact e1
  · rw [hv]; exact e2
  · rw [hv]; exact e3
  · rw [createMigrationWithRollback_data]; exact hm2
  · rw [hv2]; exact f1
  · rw [hv2]; exact f2
  · rw [hv2]; exact f3

/-- Witness for C9 at a concrete clock value and inputs. -/
theorem c9_witness :
    (envOk.clock st0.clockIdx).Valid = true ∧
    (envOk.clock (st0.clockIdx + 1)).Valid = true ∧
    ((∃ m, (deployMigration envOk st0 "CREATE TABLE t(x int)" "add_t").2.data = some m ∧
      m.version.data = yyyymmddhhmmss (envOk.clock st0.clockIdx) ∧
      m.version.length = 14 ∧ ∀ c ∈ m.version.data, c.isDigit = true) ∧
    (∃ m, (createMigrationWithRollback envOk st0 "add_u" "UP" "DOWN").2.data = some m ∧
      m.version.data = yyyymmddhhmmss (envOk.clock (st0.clockIdx + 1)) ∧
      m.version.length = 14 ∧ ∀ c ∈ m.version.data, c.isDigit = true)) :=
  ⟨by decide, by decide,
    c9_allocated_version_format envOk st0 "CREATE TABLE t(x int)" "add_t"
      "add_u" "UP" "DOWN" (by decide) (by decide)⟩

/-- C10: Every `Migration` returned by `listMigrations` or
`getMigrationStatus` carries status `applied`, regardless of the stored
row's contents: the query paths hard-code `'applied' as const`. -/
theorem c10_query_status_constant (env : Env) (st : DBState) (v : String) :
    Option.all (fun l => l.all (fun m => m.status == MStatus.applied))
        (listMigrations env st).2.data = true ∧
      Option.all (fun m => m.status == MStatus.applied)
        (getMigrationStatus env st v).2.data = true := by
  constructor
  · simp [listMigrations, Option.all, List.all_eq_true, rowToMigration]
  · simp only [getMigrationStatus]
    split
    · simp [Option.all, rowToMigration]
    · simp [Option.all]

/-- C1 counterexample: with both execution channels failing on an empty
store, `deployMigration` returns a failure result but writes NO History
Store row — the history stays empty and the allocated version
(`20250102030405`) is not visible to `getMigrationStatus` — refuting
that the version/name pair is recorded with `status=pending` in the
History Store. -/
theorem c1_counterexample :
    (deployMigration envExecFail st0 "CREATE TABLE t(x int)" "m1").2.success = false ∧
    (deployMigration envExecFail st0 "CREATE TABLE t(x int)" "m1").1.history = [] ∧
    (getMigrationStatus envExecFail
        (deployMigration envExecFail st0 "CREATE TABLE t(x int)" "m1").1
        "20250102030405").2.success = false := by
  decide

/-- C1 (amended): when the Execution Gateway fails (the `exec` RPC
errors and the admin fallback throws), `deployMigration` returns a
failure result surfacing the original execution error, with the
version/name pair at `status=pending` carried in the RESPONSE data
only; no History Store row is written (history and store-access trace
unchanged), so the version is not visible to later queries. -/
theorem c1_forward_failure_amended (env : Env) (st : DBState)
    (sql name e : String)
    (h1 : env.rpcExec sql = some e) (h2 : env.adminPost sql = false) :
    (deployMigration env st sql name).2.success = false ∧
    (deployMigration env st sql name).2.error = some (deployFailError e) ∧
    (deployMigration env st sql name).2.data =
      some { version := versionOf (env.clock st.clockIdx), name := name,
             executed_at := isoString (env.clock (st.clockIdx + 1)),
             status := .pending, sql := some sql } ∧
    (deployMigration env st sql name).1.history = st.history ∧
    (deployMigration env st sql name).1.ops = st.ops := by
  simp [deployMigration, h1, h2]

/-- Witness for the amended C1 at a concrete failing environment. -/
theorem c1_witness :
    envExecFail.rpcExec "UP" = some "boom" ∧
    envExecFail.adminPost "UP" = false ∧
    ((deployMigration envExecFail st0 "UP" "m1").2.success = false ∧
     (deployMigration envExecFail st0 "UP" "m1").2.error =
       some (deployFailError "boom") ∧
     (deployMigration envExecFail st0 "UP" "m1").2.data =
       some { version := versionOf (envExecFail.clock st0.clockIdx), name := "m1",
              executed_at := isoString (envExecFail.clock (st0.clockIdx + 1)),
              status := .pending, sql := some "UP" } ∧
     (deployMigration envExecFail st0 "UP" "m1").1.history = st0.history ∧
     (deployMigration envExecFail st0 "UP" "m1").1.ops = st0.ops) :=
  ⟨rfl, rfl, c1_forward_failure_amended envExecFail st0 "UP" "m1" "boom" rfl rfl⟩

/-- C2 counterexample: with the Execution Gateway succeeding on an empty
store, `deployMigration` returns the Migration with `status=applied`,
but `getMigrationStatus` on the returned version immediately afterwards
FAILS — no History Store row was inserted — refuting the claimed
`getStatus(returnedVersion) = applied` consequence. -/
theorem c2_counterexample :
    (deployMigration envOk st0 "CREATE TABLE t(x int)" "m1").2.success = true ∧
    (deployMigration envOk st0 "CREATE TABLE t(x int)" "m1").2.data =
      some { version := "20250102030405", name := "m1",
             executed_at := "2025-01-02T03:04:05.006Z", status := .applied,
             sql := some "CREATE TABLE t(x int)" } ∧
    (getMigrationStatus envOk
        (deployMigration envOk st0 "CREATE TABLE t(x int)" "m1").1
        "20250102030405").2.success = false := by
  decide

/-- C2 (amended): when the Execution Gateway succeeds, `deployMigration`
returns the Migration with `status=applied` and `executed_at` set, but
inserts NO History Store row (history unchanged); consequently, unless a
matching row already existed in the store, `getMigrationStatus` on the
returned version immediately afterwards fails with the not-found error
rather than yielding `applied`. -/
theorem c2_forward_success_amended (env : Env) (st : DBState)
    (sql name : String) (h1 : env.rpcExec sql = none) :
    (deployMigration env st sql name).2.success = true ∧
    (deployMigration env st sql name).2.data =
      some { version := versionOf (env.clock st.clockIdx), name := name,
             executed_at := isoString (env.clock (st.clockIdx + 1)),
             status := .applied, sql := some sql } ∧
    (deployMigration env st sql name).1.history = st.history ∧
    (st.history.filter
        (fun r => r.version == versionOf (env.clock st.clockIdx)) = [] →
      (getMigrationStatus env (deployMigration env st sql name).1
          (versionOf (env.clock st.clockIdx))).2.success = false) := by
  refine ⟨?_, ?_, ?_, ?_⟩
  · simp [deployMigration, h1]
  · simp [deployMigration, h1]
  · simp [deployMigration, h1]
  · intro hnone
    have hh : (deployMigration env st sql name).1.history = st.history :=
      (deployMigration_state env st sql name).1
    simp [getMigrationStatus, hh, hnone]

/-- Witness for the amended C2 at a concrete succeeding environment. -/
theorem c2_witness :
    envOk.rpcExec "UP" = none ∧
    ((deployMigration envOk st0 "UP" "m1").2.success = true ∧
     (deployMigration envOk st0 "UP" "m1").2.data =
       some { version := versionOf (envOk.clock st0.clockIdx), name := "m1",
              executed_at := isoString (envOk.clock (st0.clockIdx + 1)),
              status := .applied, sql := some "UP" } ∧
     (deployMigration envOk st0 "UP" "m1").1.history = st0.history ∧
     (st0.history.filter
         (fun r => r.version == versionOf (envOk.clock st0.clockIdx)) = [] →
       (getMigrationStatus envOk (deployMigration envOk st0 "UP" "m1").1
           (versionOf (envOk.clock st0.clockIdx))).2.success = false)) :=
  ⟨rfl, c2_forward_success_amended envOk st0 "UP" "m1" rfl⟩

theorem deploy_success_parts (env : Env) (st : DBState) (sql name : String)
    (h : env.rpcExec sql = none) :
    (deployMigration env st sql name).2.success = true ∧
      (deployMigration env st sql name).2.data =
        some { version := versionOf (env.clock st.clockIdx), name := name,
               executed_at := isoString (env.clock (st.clockIdx + 1)),
               status := .applied, sql := some sql } := by
  simp [deployMigration, h]

/-- C5: if applying the supplied down payload fails on both execution
channels (`exec_sql` RPC and the `executeSQL` fallback), the thrown
error aborts the entire rollback: a failure result carrying the
execution error is returned and the History Store is never touched (row
intact, no delete in the access trace). -/
theorem c5_down_failure_aborts (env : Env) (st : DBState)
    (v ds e1 e2 : String)
    (h1 : env.rpcExecSql ds = some e1) (h2 : env.rpcExec ds = some e2) :
    (rollbackMigration env st v (some ds)).2.success = false ∧
    (rollbackMigration env st v (some ds)).2.error =
      some (rollbackFailContext v ++ ": " ++ execSqlError e2) ∧
    (rollbackMigration env st v (some ds)).1.history = st.history ∧
    (rollbackMigration env st v (some ds)).1.ops = st.ops := by
  simp [rollbackMigration, executeSQL, h1, h2]

/-- Witness for C5 at a concrete environment where both channels fail. -/
theorem c5_witness :
    envExecFail.rpcExecSql "DOWN" = some "downfail" ∧
    envExecFail.rpcExec "DOWN" = some "boom" ∧
    ((rollbackMigration envExecFail st3rows "20250102030405" (some "DOWN")).2.success = false ∧
     (rollbackMigration envExecFail st3rows "20250102030405" (some "DOWN")).2.error =
       some (rollbackFailContext "20250102030405" ++ ": " ++ execSqlError "boom") ∧
     (rollbackMigration envExecFail st3rows "20250102030405" (some "DOWN")).1.history =
       st3rows.history ∧
     (rollbackMigration envExecFail st3rows "20250102030405" (some "DOWN")).1.ops =
       st3rows.ops) :=
  ⟨rfl, rfl,
    c5_down_failure_aborts envExecFail st3rows "20250102030405" "DOWN"
      "downfail" "boom" rfl rfl⟩

/-- C6: `rollbackMigration(v)` (history-only, no down payload) followed
by `getMigrationStatus(v)` fails with the not-found error; and in
general `getMigrationStatus` fails with that error whenever no History
Store row matches the queried version — a normal result object, not an
exception past the engine boundary. -/
theorem c6_rollback_then_getstatus_notfound (env : Env) (st : DBState)
    (v : String) :
    ((getMigrationStatus env (rollbackMigration env st v none).1 v).2.success = false ∧
     (getMigrationStatus env (rollbackMigration env st v none).1 v).2.error =
       some (getStatusError v)) ∧
    ∀ st2 : DBState, st2.history.filter (fun r => r.version == v) = [] →
      (getMigrationStatus env st2 v).2.success = false ∧
      (getMigrationStatus env st2 v).2.error = some (getStatusError v) := by
  constructor
  · have hh : (rollbackMigration env st v none).1.history =
        st.history.filter (fun r => !(r.version == v)) := rfl
    have hfil : ((rollbackMigration env st v none).1.history).filter
        (fun r => r.version == v) = [] := by
      rw [hh, List.filter_filter]
      simp
    constructor <;> simp [getMigrationStatus, hfil]
  · intro st2 h
    constructor <;> simp [getMigrationStatus, h]

/-- Witness for C6: concrete rollback-then-query, and a concrete state
with no matching row. -/
theorem c6_witness :
    ((getMigrationStatus envOk
        (rollbackMigration envOk st3rows "20250102030405" none).1
        "20250102030405").2.success = false ∧
     (getMigrationStatus envOk
        (rollbackMigration envOk st3rows "20250102030405" none).1
        "20250102030405").2.error = some (getStatusError "20250102030405")) ∧
    (st0.history.filter (fun r => r.version == "20250102030405") = [] ∧
     (getMigrationStatus envOk st0 "20250102030405").2.success = false ∧
     (getMigrationStatus envOk st0 "20250102030405").2.error =
       some (getStatusError "20250102030405")) :=
  ⟨(c6_rollback_then_getstatus_notfound envOk st3rows "20250102030405").1,
   ⟨rfl,
    (c6_rollback_then_getstatus_notfound envOk st3rows "20250102030405").2
      st0 rfl⟩⟩

/-- C4 counterexample: with every ledger insert attempt failing (table
provisioning notwithstanding) and the forward migration succeeding,
`createMigrationWithRollback` reports SUCCESS with no error and an empty
ledger — the retry's failure is swallowed, refuting that a
ledger-specific error is surfaced to the caller. -/
theorem c4_counterexample :
    (createMigrationWithRollback envLedgerFail st0 "m" "UP" "DOWN").2.success = true ∧
    (createMigrationWithRollback envLedgerFail st0 "m" "UP" "DOWN").2.error = none ∧
    (createMigrationWithRollback envLedgerFail st0 "m" "UP" "DOWN").1.ledger = [] := by
  decide

/-- C4 (amended): if the Rollback Ledger write fails after the forward
migration applied successfully, the engine provisions the ledger table
(the DDL goes through the execution channel) and retries the write
exactly once (exactly two insert attempts in the access trace); the
retry's outcome is DISCARDED — the operation reports success with no
error regardless — and the forward migration's success is never
retracted. -/
theorem c4_ledger_retry_amended (env : Env) (st : DBState)
    (name up down : String)
    (h1 : env.rpcExec up = none)
    (h2 : env.ledgerInsertFails st.ledgerIdx = true)
    (h3 : env.rpcExec createRollbacksTableSql = none) :
    (createMigrationWithRollback env st name up down).2.success = true ∧
    (createMigrationWithRollback env st name up down).2.error = none ∧
    (∃ m, (createMigrationWithRollback env st name up down).2.data = some m ∧
      m.status = .applied) ∧
    createRollbacksTableSql ∈
      (createMigrationWithRollback env st name up down).1.executed ∧
    (createMigrationWithRollback env st name up down).1.ledgerIdx =
      st.ledgerIdx + 2 ∧
    (createMigrationWithRollback env st name up down).1.ops =
      st.ops ++ [StoreOp.ledgerInsert (versionOf (env.clock st.clockIdx)),
                 StoreOp.ledgerInsert (versionOf (env.clock st.clockIdx))] := by
  obtain ⟨hh, hl, ho, hLI, hCI⟩ :=
    deployMigration_state env { st with clockIdx := st.clockIdx + 1 } up name
  obtain ⟨hsucc, hdata⟩ :=
    deploy_success_parts env { st with clockIdx := st.clockIdx + 1 } up name h1
  by_cases hf2 : env.ledgerInsertFails (st.ledgerIdx + 1) = true
  · simp [createMigrationWithRollback, hsucc, executeSQL, h3, hLI, ho, h2,
      hf2, hdata, List.append_assoc]
  · simp [createMigrationWithRollback, hsucc, executeSQL, h3, hLI, ho, h2,
      hf2, hdata, List.append_assoc]

/-- Witness for the amended C4 at a concrete environment where every
ledger insert fails. -/
theorem c4_witness :
    envLedgerFail.rpcExec "UP" = none ∧
    envLedgerFail.ledgerInsertFails st0.ledgerIdx = true ∧
    ((createMigrationWithRollback envLedgerFail st0 "m" "UP" "DOWN").2.success = true ∧
     (createMigrationWithRollback envLedgerFail st0 "m" "UP" "DOWN").2.error = none ∧
     (∃ m, (createMigrationWithRollback envLedgerFail st0 "m" "UP" "DOWN").2.data =
        some m ∧ m.status = .applied) ∧
     createRollbacksTableSql ∈
       (createMigrationWithRollback envLedgerFail st0 "m" "UP" "DOWN").1.executed ∧
     (createMigrationWithRollback envLedgerFail st0 "m" "UP" "DOWN").1.ledgerIdx =
       st0.ledgerIdx + 2 ∧
     (createMigrationWithRollback envLedgerFail st0 "m" "UP" "DOWN").1.ops =
       st0.ops ++
         [StoreOp.ledgerInsert (versionOf (envLedgerFail.clock st0.clockIdx)),
          StoreOp.ledgerInsert (versionOf (envLedgerFail.clock st0.clockIdx))]) :=
  ⟨rfl, rfl,
    c4_ledger_retry_amended envLedgerFail st0 "m" "UP" "DOWN" rfl rfl rfl⟩

theorem rollbackRows_snd (l : List HistoryRow) :
    ∀ st : DBState, (rollbackRows st l).2 = l.map (fun r => r.version) := by
  induction l with
  | nil => intro st; rfl
  | cons r rs ih => intro st; simp [rollbackRows, ih]

/-- The rolled-back list returned by `rollbackToVersion` is exactly the
versions of the selected rows (filter `version > target`, sorted
descending), in processing order. -/
theorem rollbackToVersion_data (env : Env) (st : DBState) (target : String) :
    (rollbackToVersion env st target).2.data =
      some ((sortByVersionDesc (st.history.filter
        (fun r => decide (target < r.version)))).map (fun r => r.version)) := by
  simp only [rollbackToVersion]
  split
  · rename_i hemp
    rw [List.isEmpty_iff] at hemp
    rw [hemp]
    rfl
  · simp [rollbackRows_snd]

/-- C7: under the data-model invariant that History Store versions are
unique, the rolled-back list returned by `rollbackToVersion(target)`
contains only versions strictly greater than `target` and is sorted
strictly descending — processing is strictly newest-first. -/
theorem c7_rollback_to_version_list (env : Env) (st : DBState)
    (target : String)
    (hnd : (st.history.map (fun r => r.version)).Nodup) :
    ∃ vs, (rollbackToVersion env st target).2.data = some vs ∧
      (∀ v ∈ vs, target < v) ∧ vs.Sorted (fun a b => a > b) := by
  refine ⟨_, rollbackToVersion_data env st target, ?_, ?_⟩
  · intro v hv
    simp only [List.mem_map] at hv
    obtain ⟨r, hr, rfl⟩ := hv
    have hr2 : r ∈ st.history.filter (fun r => decide (target < r.version)) :=
      (List.perm_insertionSort histGe _).subset hr
    exact of_decide_eq_true (List.mem_filter.1 hr2).2
  · have hs : List.Sorted histGe (sortByVersionDesc (st.history.filter
        (fun r => decide (target < r.version)))) :=
      List.sorted_insertionSort histGe _
    have hge : List.Pairwise (fun a b : String => b ≤ a)
        ((sortByVersionDesc (st.history.filter
          (fun r => decide (target < r.version)))).map (fun r => r.version)) := by
      rw [List.pairwise_map]
      exact hs
    have hnd2 : ((sortByVersionDesc (st.history.filter
        (fun r => decide (target < r.version)))).map (fun r => r.version)).Nodup := by
      have hperm : List.Perm
          (sortByVersionDesc (st.history.filter
            (fun r => decide (target < r.version))))
          (st.history.filter (fun r => decide (target < r.version))) :=
        List.perm_insertionSort histGe _
      have hsub : List.Sublist
          ((st.history.filter (fun r => decide (target < r.version))).map
            (fun r => r.version))
          (st.history.map (fun r => r.version)) :=
        (List.filter_sublist _).map _
      exact ((hperm.map (fun r => r.version)).nodup_iff).2 (hnd.sublist hsub)
    exact (List.pairwise_and_iff.2 ⟨hge, hnd2⟩).imp
      (fun h => lt_of_le_of_ne h.1 (Ne.symm h.2))

/-- Witness for C7 on a three-row history with distinct versions. -/
theorem c7_witness :
    (st3rows.history.map (fun r => r.version)).Nodup ∧
    ∃ vs, (rollbackToVersion envOk st3rows "20250102030403").2.data = some vs ∧
      (∀ v ∈ vs, "20250102030403" < v) ∧ vs.Sorted (fun a b => a > b) :=
  ⟨by decide,
    c7_rollback_to_version_list envOk st3rows "20250102030403" (by decide)⟩

/-- C3: evaluation of the code at the failing input.
`createMigrationWithRollback` allocates its own version (first clock
read, `20250102030405`) and then delegates to `deployMigration`, which
allocates ANOTHER version (second clock read, `20250102030406`).  When
the second boundary is crossed between the two reads, the Rollback
Ledger row is stored under the stale outer version while the returned
Migration carries the inner one; the immediate stored-down rollback of
the returned version then finds no ledger row, fails, and never applies
the down payload (zero occurrences in the execution trace) — refuting
both the same-version property and the exactly-once down invocation. -/
theorem c3_code_eval :
    versionOf dt0 = "20250102030405" ∧
    versionOf dt1 = "20250102030406" ∧
    versionOf dt0 ≠ versionOf dt1 ∧
    (createMigrationWithRollback envTick st0 "m" "UP" "DOWN").2.success = true ∧
    (createMigrationWithRollback envTick st0 "m" "UP" "DOWN").2.data =
      some { version := "20250102030406", name := "m",
             executed_at := "2025-01-02T03:04:06.007Z", status := .applied,
             sql := some "UP" } ∧
    (createMigrationWithRollback envTick st0 "m" "UP" "DOWN").1.ledger =
      [{ version := "20250102030405", name := "m", down_sql := "DOWN",
         created_at := "2025-01-02T03:04:06.007Z" }] ∧
    (rollbackMigrationWithDownSql envTick
        (createMigrationWithRollback envTick st0 "m" "UP" "DOWN").1
        "20250102030406").2.success = false ∧
    (rollbackMigrationWithDownSql envTick
        (createMigrationWithRollback envTick st0 "m" "UP" "DOWN").1
        "20250102030406").2.error =
      some (noRollbackDataError "20250102030406") ∧
    (rollbackMigrationWithDownSql envTick
        (createMigrationWithRollback envTick st0 "m" "UP" "DOWN").1
        "20250102030406").1.executed.count "DOWN" = 0 := by
  decide

/-- C8: evaluation of the code at the failing input.  The zod schema
(`isValidVersionStr`, the regex `^\d{14}$`) rejects `"not-a-version"`,
yet the `rollback_migration` tool handler performs a History Store
delete for it and reports success, and the `get_migration_status`
handler performs a History Store select for it — no ValidationError is
returned before store access.  By contrast the `deploy_migration`
handler does reject an empty payload before any store access. -/
theorem c8_code_eval :
    isValidVersionStr "not-a-version" = false ∧
    (toolRollbackMigration envOk st0 "not-a-version" none).1.ops =
      [StoreOp.historyDelete "not-a-version"] ∧
    (toolRollbackMigration envOk st0 "not-a-version" none).2.success = true ∧
    (toolRollbackMigration envOk st0 "not-a-version" none).2.error = none ∧
    (toolGetMigrationStatus envOk st0 "not-a-version").1.ops =
      [StoreOp.historySelectEq "not-a-version"] ∧
    (toolDeployMigration envOk st0 "" "m").2.success = false ∧
    (toolDeployMigration envOk st0 "" "m").1.ops = [] := by
  decide
